import Mathlib

/-!
Verification of the ChattyFunnel core against its specification.

The development shallowly embeds the three subsystems the spec calls the
core of the repository:

* the Identity Resolver (`create_stable_conversation_id` and the webhook
  handler `handle_facebook_message` from `REALTIME_MESSAGING.md`), with a
  concrete byte-level MD5 so the conversation-key derivation is executable;
* the Automation Resolver (bot-selection hierarchy and trigger evaluator);
  its backend implementation is not part of the sources, so it is modelled
  from the spec where noted;
* the client WebSocket session logic (`frontend/hooks/useWebSocket.ts` and
  `frontend/contexts/WebSocketContext.tsx`) as a small-step state machine
  over the hook's mutable refs, driven by runtime events.

Machine integers are `Nat` with explicit reduction mod 2^32 where the
source overflows; fallible lookups are `Option`.
-/

namespace ChattyFunnel

/-! ## MD5 (`hashlib.md5` as used by `create_stable_conversation_id`) -/

/-- Addition of two 32-bit words, reduced mod 2^32. -/
def add32 (a b : Nat) : Nat := (a + b) % 4294967296

/-- Bitwise complement on 32-bit words. -/
def not32 (a : Nat) : Nat := 4294967295 ^^^ a

/-- Left rotation of a 32-bit word by `n` places (`0 < n < 32`). -/
def rotl32 (x n : Nat) : Nat := ((x <<< n) % 4294967296) ||| (x >>> (32 - n))

/-- The 64 MD5 round constants `K[i] = floor(2^32 * abs(sin(i+1)))`. -/
def md5K : List Nat :=
  [0xd76aa478, 0xe8c7b756, 0x242070db, 0xc1bdceee,
   0xf57c0faf, 0x4787c62a, 0xa8304613, 0xfd469501,
   0x698098d8, 0x8b44f7af, 0xffff5bb1, 0x895cd7be,
   0x6b901122, 0xfd987193, 0xa679438e, 0x49b40821,
   0xf61e2562, 0xc040b340, 0x265e5a51, 0xe9b6c7aa,
   0xd62f105d, 0x02441453, 0xd8a1e681, 0xe7d3fbc8,
   0x21e1cde6, 0xc33707d6, 0xf4d50d87, 0x455a14ed,
   0xa9e3e905, 0xfcefa3f8, 0x676f02d9, 0x8d2a4c8a,
   0xfffa3942, 0x8771f681, 0x6d9d6122, 0xfde5380c,
   0xa4beea44, 0x4bdecfa9, 0xf6bb4b60, 0xbebfbc70,
   0x289b7ec6, 0xeaa127fa, 0xd4ef3085, 0x04881d05,
   0xd9d4d039, 0xe6db99e5, 0x1fa27cf8, 0xc4ac5665,
   0xf4292244, 0x432aff97, 0xab9423a7, 0xfc93a039,
   0x655b59c3, 0x8f0ccc92, 0xffeff47d, 0x85845dd1,
   0x6fa87e4f, 0xfe2ce6e0, 0xa3014314, 0x4e0811a1,
   0xf7537e82, 0xbd3af235, 0x2ad7d2bb, 0xeb86d391]

/-- The 64 per-round left-rotation amounts. -/
def md5S : List Nat :=
  [7, 12, 17, 22, 7, 12, 17, 22, 7, 12, 17, 22, 7, 12, 17, 22,
   5, 9, 14, 20, 5, 9, 14, 20, 5, 9, 14, 20, 5, 9, 14, 20,
   4, 11, 16, 23, 4, 11, 16, 23, 4, 11, 16, 23, 4, 11, 16, 23,
   6, 10, 15, 21, 6, 10, 15, 21, 6, 10, 15, 21, 6, 10, 15, 21]

/-- The four-word MD5 chaining state. -/
structure MD5State where
  a : Nat
  b : Nat
  c : Nat
  d : Nat

/-- A little-endian 32-bit word from four bytes. -/
def leWord (b0 b1 b2 b3 : Nat) : Nat :=
  b0 + 256 * b1 + 65536 * b2 + 16777216 * b3

/-- The sixteen little-endian message words of one 64-byte chunk. -/
def chunkWords (c : List Nat) : List Nat :=
  (List.range 16).map fun j =>
    leWord (c.getD (4 * j) 0) (c.getD (4 * j + 1) 0)
      (c.getD (4 * j + 2) 0) (c.getD (4 * j + 3) 0)

/-- One MD5 round: mixes message word `M[g]` into the state using the
round function selected by the round index `i`. -/
def md5Round (m : List Nat) (st : MD5State) (i : Nat) : MD5State :=
  let fg : Nat × Nat :=
    if i < 16 then ((st.b &&& st.c) ||| (not32 st.b &&& st.d), i)
    else if i < 32 then ((st.d &&& st.b) ||| (not32 st.d &&& st.c), (5 * i + 1) % 16)
    else if i < 48 then (st.b ^^^ st.c ^^^ st.d, (3 * i + 5) % 16)
    else (st.c ^^^ (st.b ||| not32 st.d), (7 * i) % 16)
  let f := add32 (add32 (add32 fg.1 st.a) (md5K.getD i 0)) (m.getD fg.2 0)
  { a := st.d, b := add32 st.b (rotl32 f (md5S.getD i 0)), c := st.b, d := st.c }

/-- Process one padded 64-byte chunk: 64 rounds, then add into the chain. -/
def md5Chunk (st : MD5State) (c : List Nat) : MD5State :=
  let m := chunkWords c
  let r := (List.range 64).foldl (md5Round m) st
  { a := add32 st.a r.a, b := add32 st.b r.b, c := add32 st.c r.c, d := add32 st.d r.d }

/-- The eight little-endian bytes of the 64-bit message bit length. -/
def lenBytes (bitLen : Nat) : List Nat :=
  (List.range 8).map fun i => (bitLen >>> (8 * i)) % 256

/-- MD5 padding: a `0x80` byte, zeros to 56 mod 64, then the bit length. -/
def padMessage (msg : List Nat) : List Nat :=
  msg ++ [0x80] ++ List.replicate ((56 + 64 - (msg.length + 1) % 64) % 64) 0 ++
    lenBytes (8 * msg.length % 18446744073709551616)

/-- Chunk splitting with a structural fuel bound: each step consumes at
least one byte, so fuel equal to the list length always suffices. -/
def toBlocksAux : Nat → List Nat → List (List Nat)
  | _, [] => []
  | 0, _ :: _ => []
  | fuel + 1, x :: xs => ((x :: xs).take 64) :: toBlocksAux fuel ((x :: xs).drop 64)

/-- Split a byte list into 64-byte chunks (the last may be short only for
unpadded input; padded input splits exactly). -/
def toBlocks (l : List Nat) : List (List Nat) := toBlocksAux l.length l

/-- The sixteen digest bytes of the MD5 of a byte list. -/
def md5Bytes (msg : List Nat) : List Nat :=
  let st := (toBlocks (padMessage msg)).foldl md5Chunk
    ⟨0x67452301, 0xefcdab89, 0x98badcfe, 0x10325476⟩
  [st.a % 256, (st.a >>> 8) % 256, (st.a >>> 16) % 256, (st.a >>> 24) % 256,
   st.b % 256, (st.b >>> 8) % 256, (st.b >>> 16) % 256, (st.b >>> 24) % 256,
   st.c % 256, (st.c >>> 8) % 256, (st.c >>> 16) % 256, (st.c >>> 24) % 256,
   st.d % 256, (st.d >>> 8) % 256, (st.d >>> 16) % 256, (st.d >>> 24) % 256]

/-- A lowercase hex digit. -/
def hexDigit (n : Nat) : Char :=
  if n < 10 then Char.ofNat (48 + n) else Char.ofNat (87 + n)

/-- The two lowercase hex characters of one byte. -/
def byteHex (b : Nat) : List Char := [hexDigit (b / 16), hexDigit (b % 16)]

/-- The 32 characters of `hashlib.md5(...).hexdigest()`. -/
def md5HexChars (msg : List Nat) : List Char :=
  ((md5Bytes msg).map byteHex).flatten

/-- UTF-8 encoding of one code point (Python `str.encode()`). -/
def utf8EncodeChar (n : Nat) : List Nat :=
  if n < 128 then [n]
  else if n < 2048 then [192 ||| (n >>> 6), 128 ||| (n &&& 63)]
  else if n < 65536 then
    [224 ||| (n >>> 12), 128 ||| ((n >>> 6) &&& 63), 128 ||| (n &&& 63)]
  else
    [240 ||| (n >>> 18), 128 ||| ((n >>> 12) &&& 63),
     128 ||| ((n >>> 6) &&& 63), 128 ||| (n &&& 63)]

/-- The UTF-8 bytes of a string (Python `str.encode()`). -/
def strBytes (s : String) : List Nat :=
  (s.data.map fun c => utf8EncodeChar c.toNat).flatten

/-- `create_stable_conversation_id` from `REALTIME_MESSAGING.md`:
`hashlib.md5(f"{platform}_{user_id}_{participant_id}".encode()).hexdigest()[:16]`. -/
def create_stable_conversation_id (platform : String) (user_id : Nat)
    (participant_id : String) : String :=
  let raw_id := platform ++ "_" ++ toString user_id ++ "_" ++ participant_id
  String.mk ((md5HexChars (strBytes raw_id)).take 16)

/-! ## Ingestion: the webhook handler `handle_facebook_message`
(`REALTIME_MESSAGING.md`, backend webhook-handler code) -/

/-- A row of `connected_accounts` as read by the handler. -/
structure ConnectedAccount where
  id : Nat
  platform : String
  page_id : String
  is_active : Bool
  user_id : Nat
  access_token : String
deriving DecidableEq

/-- The fields of a Facebook webhook messaging event the handler reads:
`event["sender"]["id"]`, `event["recipient"]["id"]`, whether `"message"`
is present, `message.get("mid")` and `message.get("text", "")`. -/
structure FBEvent where
  sender_id : String
  recipient_id : String
  has_message : Bool
  mid : Option String
  text : String
deriving DecidableEq

/-- The result of the external `fetch_sender_info` Graph-API call. -/
structure SenderInfo where
  name : Option String
  username : Option String
  profile_pic : Option String
deriving DecidableEq

/-- A row of `conversation_participants`. -/
structure ConversationParticipant where
  conversation_id : String
  platform : String
  platform_conversation_id : String
  participant_id : String
  participant_name : Option String
  participant_username : Option String
  participant_profile_pic : Option String
  user_id : Nat
  last_message_at : Nat
deriving DecidableEq

/-- Message direction (`MessageDirection.INCOMING` / outgoing). -/
inductive MessageDirection where
  | incoming
  | outgoing
deriving DecidableEq

/-- Message delivery status (`MessageStatus.DELIVERED` is the one the
handler writes). -/
inductive MessageStatus where
  | delivered
  | sent
  | failed
deriving DecidableEq

/-- A row of `messages` as written by the handler. -/
structure Message where
  user_id : Nat
  platform : String
  conversation_id : String
  message_id : Option String
  sender_id : String
  recipient_id : String
  direction : MessageDirection
  content : String
  status : MessageStatus
deriving DecidableEq

/-- One `manager.broadcast_to_user` call recorded by the handler. -/
structure Broadcast where
  user_id : Nat
  event_type : String
  conversation_id : String
  content : String
  sender_id : String
deriving DecidableEq

/-- The slice of database state the handler reads and writes, plus the
log of WebSocket broadcasts it emits. -/
structure DB where
  accounts : List ConnectedAccount
  participants : List ConversationParticipant
  messages : List Message
  broadcasts : List Broadcast
deriving DecidableEq

/-- The handler's account lookup: first active facebook account whose
`page_id` equals the event's recipient id. -/
def findAccount (db : DB) (event : FBEvent) : Option ConnectedAccount :=
  db.accounts.find? fun a =>
    a.platform == "facebook" && a.page_id == event.recipient_id && a.is_active

/-- The participant upsert inside the handler: create the row on first
contact, otherwise refresh `participant_name` and `last_message_at`. -/
def upsertParticipant (now : Nat) (conv_id : String) (event : FBEvent)
    (info : SenderInfo) (account : ConnectedAccount)
    (ps : List ConversationParticipant) : List ConversationParticipant :=
  match ps.find? fun p => p.conversation_id == conv_id with
  | none =>
    ps ++ [{ conversation_id := conv_id
             platform := "facebook"
             platform_conversation_id := event.sender_id
             participant_id := event.sender_id
             participant_name := info.name
             participant_username := info.username
             participant_profile_pic := info.profile_pic
             user_id := account.user_id
             last_message_at := now }]
  | some _ =>
    ps.map fun p =>
      if p.conversation_id == conv_id then
        { p with participant_name := info.name, last_message_at := now }
      else p

/-- `handle_facebook_message`: look up the receiving account by page id,
derive the stable conversation id, upsert the participant, append the
message row unconditionally, and broadcast to the account's user. The
external `fetch_sender_info` call is passed in as a function. -/
def handle_facebook_message (fetchInfo : String → String → SenderInfo)
    (now : Nat) (event : FBEvent) (db : DB) : DB :=
  match findAccount db event with
  | none => db
  | some account =>
    if event.has_message then
      let conv_id := create_stable_conversation_id "facebook" account.user_id event.sender_id
      let info := fetchInfo event.sender_id account.access_token
      { db with
        participants := upsertParticipant now conv_id event info account db.participants
        messages := db.messages ++
          [{ user_id := account.user_id
             platform := "facebook"
             conversation_id := conv_id
             message_id := event.mid
             sender_id := event.sender_id
             recipient_id := event.recipient_id
             direction := .incoming
             content := event.text
             status := .delivered }]
        broadcasts := db.broadcasts ++
          [{ user_id := account.user_id
             event_type := "new_message"
             conversation_id := conv_id
             content := event.text
             sender_id := event.sender_id }] }
    else db

/-! ## Trigger evaluator and Automation Resolver

The backend services implementing these are not part of the sources; only
the schema (`WORKSPACE_FUNNEL_DESIGN.md`), the hierarchy description, and
the frontend API type declarations (`lib/api`) are. The operational
definitions below are therefore modelled from the spec, against the data
shapes declared in the sources. -/

/-- Sentiment polarity for a `sentiment` trigger. -/
inductive Polarity where
  | positive
  | negative
deriving DecidableEq

/-- A trigger specification (`trigger_type` plus its `trigger_config`):
keyword sets with any/all matching, a sentiment threshold for a polarity,
a time-of-day window with a timezone offset, or `always`. -/
inductive TriggerSpec where
  | keyword (keywords : List String) (matchAll : Bool)
  | sentiment (polarity : Polarity) (threshold : Int)
  | time_based (startMin endMin : Nat) (tzOffsetMin : Int)
  | always
deriving DecidableEq

/-- A row of `ai_bot_triggers` (fields per the schema and the frontend
`AIBotTrigger` declaration). -/
structure AIBotTrigger where
  id : Nat
  bot_id : Nat
  spec : TriggerSpec
  priority : Int
  is_active : Bool
deriving DecidableEq

/-- Bot type (`workspace_default`, `funnel_specific`, `conversation_override`). -/
inductive BotType where
  | workspace_default
  | funnel_specific
  | conversation_override
deriving DecidableEq

/-- A row of `ai_bots`, restricted to the fields the resolver reads
(per the schema and the frontend `AIBot` declaration; provider, model,
prompt and sampling parameters do not influence responder selection). -/
structure AIBot where
  id : Nat
  workspace_id : Nat
  name : String
  bot_type : BotType
  auto_respond : Bool
  max_messages_per_conversation : Option Nat
  is_active : Bool
  triggers : List AIBotTrigger
deriving DecidableEq

/-- A row of `conversation_ai_settings`. -/
structure ConversationAISettings where
  id : Nat
  conversation_id : String
  workspace_id : Nat
  ai_enabled : Bool
  assigned_bot_id : Option Nat
  funnel_id : Option Nat
  override_workspace_default : Bool
deriving DecidableEq

/-- A funnel step's `step_type` together with its `step_config` payload
(for `ai_response`: `{"bot_id": ..., "max_messages": ...}` as in the
design document's example flow). -/
inductive StepSpec where
  | send_message (text : String)
  | delay (minutes : Nat)
  | condition (ifKey thenStep elseStep : String)
  | tag (add remove : List String)
  | assign_human
  | ai_response (bot_id : Nat) (max_messages : Option Nat)
deriving DecidableEq

/-- A row of `funnel_steps`. -/
structure FunnelStep where
  id : Nat
  funnel_id : Nat
  name : String
  step_order : Nat
  spec : StepSpec
  is_active : Bool
deriving DecidableEq

/-- A row of `funnels`, with its steps (as the frontend `Funnel`
declaration carries them). -/
structure Funnel where
  id : Nat
  workspace_id : Nat
  name : String
  is_active : Bool
  priority : Int
  steps : List FunnelStep
deriving DecidableEq

/-- Enrollment status (`active`, `completed`, `paused`, `exited`). -/
inductive EnrollStatus where
  | active
  | completed
  | paused
  | exited
deriving DecidableEq

/-- A row of `funnel_enrollments`. `automated_replies` is the count of
prior automated replies in this enrollment, which the spec says is kept
for the `ai_response` step's `max_messages` cap (the schema stores it in
the enrollment's `metadata` bag). -/
structure FunnelEnrollment where
  id : Nat
  funnel_id : Nat
  conversation_id : String
  current_step : Nat
  status : EnrollStatus
  next_step_at : Option Nat
  automated_replies : Nat
deriving DecidableEq

/-- The inbound message plus the context the trigger evaluator consults:
a supplied sentiment score with its polarity, and the arrival time as
minutes since UTC midnight. -/
structure MsgCtx where
  body : String
  sentimentPolarity : Polarity
  sentimentScore : Int
  arrivalMin : Nat
deriving DecidableEq

/-- Case-folded characters of a string for case-insensitive matching. -/
def lowerChars (s : String) : List Char := s.data.map Char.toLower

/-- Substring containment on character lists. -/
def containsSub (needle : List Char) : List Char → Bool
  | [] => needle.isEmpty
  | c :: cs => needle.isPrefixOf (c :: cs) || containsSub needle cs

/-- Modelled from the spec: the pure trigger evaluator
`evaluate(trigger, message, context) -> bool` of the missing backend
service. `keyword` is a case-insensitive substring match over any (or
all) of the configured keywords; `sentiment` is a threshold test for the
configured polarity; `time_based` checks the arrival time, shifted by the
configured timezone offset, against the configured time-of-day window
(wrapping windows span midnight); `always` is unconditionally true. -/
def evaluateTrigger (t : TriggerSpec) (ctx : MsgCtx) : Bool :=
  match t with
  | .keyword ks matchAll =>
    let hit := fun k => containsSub (lowerChars k) (lowerChars ctx.body)
    if matchAll then ks.all hit else ks.any hit
  | .sentiment pol threshold =>
    ctx.sentimentPolarity == pol && threshold ≤ ctx.sentimentScore
  | .time_based startMin endMin tz =>
    let t := (((ctx.arrivalMin : Int) + tz) % 1440).toNat
    if startMin ≤ endMin then startMin ≤ t && t ≤ endMin
    else startMin ≤ t || t ≤ endMin
  | .always => true

/-- Insert a trigger into a list sorted by descending priority, ties by
lowest id. -/
def insertByPrio (t : AIBotTrigger) : List AIBotTrigger → List AIBotTrigger
  | [] => [t]
  | u :: us =>
    if u.priority < t.priority || (t.priority == u.priority && t.id ≤ u.id) then
      t :: u :: us
    else u :: insertByPrio t us

/-- Triggers sorted in evaluation order: descending priority, ties broken
by lowest id. -/
def sortTriggers (ts : List AIBotTrigger) : List AIBotTrigger :=
  ts.foldr insertByPrio []

/-- Modelled from the spec: the first active trigger of the list that
evaluates true, in descending-priority order with ties by lowest id. -/
def firstMatchingTrigger (ts : List AIBotTrigger) (ctx : MsgCtx) :
    Option AIBotTrigger :=
  (sortTriggers (ts.filter fun t => t.is_active)).find? fun t =>
    evaluateTrigger t.spec ctx

/-- Modelled from the spec: the trigger gate on a nominally selected bot —
true when some active trigger of the bot matches the message. -/
def botTriggerMatches (bot : AIBot) (ctx : MsgCtx) : Bool :=
  (firstMatchingTrigger bot.triggers ctx).isSome

/-- The stored automation state the resolver consults. -/
structure ResolverEnv where
  bots : List AIBot
  funnels : List Funnel
  enrollments : List FunnelEnrollment
  settings : List ConversationAISettings
deriving DecidableEq

/-- The per-conversation AI settings row, if any (`conversation_id` is
unique in the schema). -/
def findSettings (env : ResolverEnv) (key : String) :
    Option ConversationAISettings :=
  env.settings.find? fun s => s.conversation_id == key

/-- The conversation's active enrollment, if any. -/
def activeEnrollment (env : ResolverEnv) (key : String) :
    Option FunnelEnrollment :=
  env.enrollments.find? fun e =>
    e.conversation_id == key && e.status == .active

/-- The step an enrollment currently sits at: the enrolled funnel's step
with `step_order` equal to the enrollment's `current_step`. -/
def currentStepOf (env : ResolverEnv) (e : FunnelEnrollment) :
    Option FunnelStep :=
  match env.funnels.find? fun f => f.id == e.funnel_id with
  | none => none
  | some f => f.steps.find? fun st => st.step_order == e.current_step

/-- Bot lookup by id. -/
def findBot (env : ResolverEnv) (botId : Nat) : Option AIBot :=
  env.bots.find? fun b => b.id == botId

/-- Modelled from the spec, hierarchy step 1: the conversation override —
`assigned_bot_id` when the settings row exists and `ai_enabled` is true. -/
def overrideBot (env : ResolverEnv) (key : String) : Option Nat :=
  match findSettings env key with
  | some s => if s.ai_enabled then s.assigned_bot_id else none
  | none => none

/-- Modelled from the spec, hierarchy step 2: the bot of the active
enrollment's current `ai_response` step, honoring the step's
`max_messages` cap — once the enrollment's count of prior automated
replies reaches the cap, no funnel bot applies. -/
def funnelBot (env : ResolverEnv) (key : String) : Option Nat :=
  match activeEnrollment env key with
  | none => none
  | some e =>
    match currentStepOf env e with
    | none => none
    | some st =>
      match st.spec with
      | .ai_response botId maxMsgs =>
        match maxMsgs with
        | some cap => if e.automated_replies < cap then some botId else none
        | none => some botId
      | _ => none

/-- Modelled from the spec, hierarchy step 3: the workspace's active
`workspace_default` bot with `auto_respond = true`, if any. -/
def workspaceDefaultBot (env : ResolverEnv) (wsId : Nat) : Option Nat :=
  (env.bots.find? fun b =>
    b.workspace_id == wsId && b.bot_type == .workspace_default &&
      b.is_active && b.auto_respond).map fun b => b.id

/-- Modelled from the spec: the strict short-circuiting selection order
of §4.4 — conversation override, else funnel `ai_response` bot, else
workspace default. -/
def selectResponder (env : ResolverEnv) (key : String) (wsId : Nat) :
    Option Nat :=
  match overrideBot env key with
  | some b => some b
  | none =>
    match funnelBot env key with
    | some b => some b
    | none => workspaceDefaultBot env wsId

/-- The resolver's decision type. -/
inductive ResponderDecision where
  | NoResponse
  | UseBot (bot_id : Nat)
deriving DecidableEq

/-- Modelled from the spec: `resolveResponder` — select a bot by the
hierarchy, then gate it on its own trigger list: if no trigger of the
selected bot matches the message, the resolver returns `NoResponse` even
though a bot was nominally selected. -/
def resolveResponder (env : ResolverEnv) (key : String) (wsId : Nat)
    (ctx : MsgCtx) : ResponderDecision :=
  match selectResponder env key wsId with
  | none => .NoResponse
  | some botId =>
    match findBot env botId with
    | none => .NoResponse
    | some bot =>
      if botTriggerMatches bot ctx then .UseBot botId else .NoResponse

/-- The `funnel_enrollments` schema constraint
`UNIQUE(funnel_id, conversation_id, status)`: no two rows agree on all
three columns. -/
def enrollmentsUnique (es : List FunnelEnrollment) : Prop :=
  es.Pairwise fun a b =>
    ¬(a.funnel_id = b.funnel_id ∧ a.conversation_id = b.conversation_id ∧
      a.status = b.status)

instance : DecidablePred enrollmentsUnique := fun es =>
  List.instDecidablePairwise es

/-- The number of enrollment rows for a `(funnel, conversation)` pair in
a given status. -/
def countEnrollments (es : List FunnelEnrollment) (funnelId : Nat)
    (convId : String) (st : EnrollStatus) : Nat :=
  (es.filter fun e =>
    e.funnel_id == funnelId && e.conversation_id == convId &&
      e.status == st).length

/-! ## Client WebSocket session logic (`frontend/hooks/useWebSocket.ts`)

The hook's mutable refs become the fields of `ClientState`; each browser
runtime event (socket callbacks, timer fires, user calls) becomes one
small step. `wire` is the log of frames sent on the current socket, used
to state ordering properties; a new socket starts with an empty log. -/

/-- A socket's `readyState`. -/
inductive ReadyState where
  | connecting
  | opened
  | closing
  | closed
deriving DecidableEq

/-- The `connectionState` React state of the hook. -/
inductive ConnState where
  | connecting
  | connected
  | disconnected
  | error
deriving DecidableEq

/-- The `lastError` strings the hook writes, with their payloads. -/
inductive ErrMsg where
  | heartbeatTimeout
  | userNotFound
  | connectionClosed
  | reconnecting (delayMs : Nat) (attempt : Nat)
  | wsError
deriving DecidableEq

/-- The hook's per-client state: `ws.current` (as its `readyState`),
whether `pingInterval.current` / `pongTimeout.current` /
`reconnectTimeout.current` are set (the last with its delay),
`reconnectAttempts.current`, `messageQueue.current`,
`isManualClose.current`, the React `connectionState` / `lastError`, and
the ghost log `wire` of frames sent on the current socket. -/
structure ClientState where
  ws : Option ReadyState
  pingActive : Bool
  pongActive : Bool
  reconnectScheduled : Option Nat
  reconnectAttempts : Nat
  messageQueue : List String
  isManualClose : Bool
  connState : ConnState
  lastError : Option ErrMsg
  wire : List String
deriving DecidableEq

/-- The runtime events that drive the hook. -/
inductive WSEvent where
  | connectCall
  | openEvt
  | pingTick
  | pongTimeoutFire
  | pongMsg
  | closeEvt (code : Nat) (wasClean : Bool)
  | send (m : String)
  | reconnectFire
  | disconnectCall
  | reconnectCall
deriving DecidableEq

/-- `WebSocket.close()`: a live socket transitions to closing; a closed
one is unaffected. -/
def closeSocket : Option ReadyState → Option ReadyState
  | none => none
  | some .closed => some .closed
  | some _ => some .closing

/-- The reconnect delay computed in the hook's `onclose`
(`useWebSocket.ts`): start at 100 ms, then `min(1000 * 2^(attempts-1),
10000)`. -/
def reconnectDelay (attempts : Nat) : Nat :=
  if attempts = 0 then 100 else min (1000 * 2 ^ (attempts - 1)) 10000

/-- The reconnect delay computed in `WebSocketContext.tsx`: identical but
starting at 500 ms. -/
def ctxReconnectDelay (attempts : Nat) : Nat :=
  if attempts = 0 then 500 else min (1000 * 2 ^ (attempts - 1)) 10000

/-- `connect.current()`: bail out when manually closed, otherwise close
any existing socket and open a fresh one (which starts with an empty
frame log). The hook's connect does not clear the heartbeat timers; the
old socket's own close event does. -/
def doConnect (s : ClientState) : ClientState :=
  if s.isManualClose then s
  else
    { s with
      connState := .connecting
      lastError := none
      ws := some .connecting
      wire := [] }

/-- One step of the hook's event-driven behavior. Each branch transcribes
the corresponding handler in `useWebSocket.ts`; an event whose timer or
socket is absent is a no-op (the runtime cannot fire it). -/
def step (e : WSEvent) (s : ClientState) : ClientState :=
  match e with
  | .connectCall => doConnect s
  | .openEvt =>
    if s.ws == some .connecting then
      { s with
        ws := some .opened
        connState := .connected
        lastError := none
        reconnectAttempts := 0
        wire := s.wire ++ s.messageQueue
        messageQueue := []
        pingActive := true }
    else s
  | .pingTick =>
    if s.pingActive then
      if s.ws == some .opened then
        { s with wire := s.wire ++ ["ping"], pongActive := true }
      else s
    else s
  | .pongTimeoutFire =>
    if s.pongActive then
      { s with
        pongActive := false
        connState := .error
        lastError := some .heartbeatTimeout
        ws := closeSocket s.ws }
    else s
  | .pongMsg =>
    if s.ws == some .opened && s.pongActive then
      { s with pongActive := false }
    else s
  | .closeEvt code _ =>
    if s.ws == none then s
    else
      let s' := { s with
        connState := .disconnected
        ws := some .closed
        pingActive := false
        pongActive := false }
      if s.isManualClose || code == 1008 then
        { s' with
          lastError := some (if code == 1008 then .userNotFound else .connectionClosed) }
      else
        let delay := reconnectDelay s.reconnectAttempts
        { s' with
          reconnectAttempts := s.reconnectAttempts + 1
          lastError := some (.reconnecting delay (s.reconnectAttempts + 1))
          reconnectScheduled := some delay }
  | .send m =>
    if s.ws == some .opened then { s with wire := s.wire ++ [m] }
    else { s with messageQueue := s.messageQueue ++ [m] }
  | .reconnectFire =>
    match s.reconnectScheduled with
    | some _ => doConnect { s with reconnectScheduled := none }
    | none => s
  | .disconnectCall =>
    { s with
      isManualClose := true
      ws := closeSocket s.ws
      connState := .disconnected }
  | .reconnectCall =>
    doConnect { s with isManualClose := false, reconnectAttempts := 0 }

/-- Run a sequence of runtime events. -/
def steps (es : List WSEvent) (s : ClientState) : ClientState :=
  es.foldl (fun t e => step e t) s

/-- The hook's heartbeat probe period (`setInterval(..., 15000)`). -/
def pingIntervalMs : Nat := 15000

/-- The hook's pong wait (`setTimeout(..., 5000)`). -/
def pongTimeoutMs : Nat := 5000

/-! ## Concrete instances used by the claim-level counterexamples and
witnesses -/

/-- A stand-in for the external Graph-API sender-info fetch. -/
def fetchW : String → String → SenderInfo :=
  fun _ _ => { name := some "Alice", username := none, profile_pic := none }

/-- Page A of user 7. -/
def acctC2A : ConnectedAccount :=
  { id := 1, platform := "facebook", page_id := "pageA", is_active := true
    user_id := 7, access_token := "tokA" }

/-- Page B of the same user 7. -/
def acctC2B : ConnectedAccount :=
  { id := 2, platform := "facebook", page_id := "pageB", is_active := true
    user_id := 7, access_token := "tokB" }

/-- A workspace with the same participant reachable through two pages. -/
def dbC2 : DB :=
  { accounts := [acctC2A, acctC2B], participants := [], messages := []
    broadcasts := [] }

/-- Participant P1 messaging page A. -/
def evC2A : FBEvent :=
  { sender_id := "P1", recipient_id := "pageA", has_message := true
    mid := some "mA", text := "hi" }

/-- Participant P1 messaging page B after an account migration. -/
def evC2B : FBEvent :=
  { sender_id := "P1", recipient_id := "pageB", has_message := true
    mid := some "mB", text := "hi again" }

/-- The single connected account of the duplicate-delivery runs. -/
def acctC3 : ConnectedAccount :=
  { id := 1, platform := "facebook", page_id := "page1", is_active := true
    user_id := 7, access_token := "tok" }

/-- A one-account database for the duplicate-delivery runs. -/
def dbC3 : DB :=
  { accounts := [acctC3], participants := [], messages := [], broadcasts := [] }

/-- A webhook event carrying platform message id `mid-1`, delivered twice. -/
def evC3 : FBEvent :=
  { sender_id := "P1", recipient_id := "page1", has_message := true
    mid := some "mid-1", text := "hello" }

/-- The single connected account of the empty-participant-id run. -/
def acctC8 : ConnectedAccount :=
  { id := 1, platform := "facebook", page_id := "page1", is_active := true
    user_id := 7, access_token := "tok" }

/-- A one-account database for the empty-participant-id event. -/
def dbC8 : DB :=
  { accounts := [acctC8], participants := [], messages := [], broadcasts := [] }

/-- A webhook event whose sender id is empty. -/
def evC8 : FBEvent :=
  { sender_id := "", recipient_id := "page1", has_message := true
    mid := some "m", text := "hi" }

/-- The conversation-override settings row: bot 1 assigned, AI enabled. -/
def settingsC1 : ConversationAISettings :=
  { id := 1, conversation_id := "conv", workspace_id := 1, ai_enabled := true
    assigned_bot_id := some 1, funnel_id := none
    override_workspace_default := false }

/-- An override bot with an empty trigger list. -/
def botC1 : AIBot :=
  { id := 1, workspace_id := 1, name := "override"
    bot_type := .conversation_override, auto_respond := false
    max_messages_per_conversation := none, is_active := true, triggers := [] }

/-- The same override bot with an `always` trigger. -/
def botC1w : AIBot :=
  { botC1 with
    triggers := [{ id := 11, bot_id := 1, spec := .always, priority := 0
                   is_active := true }] }

/-- Automation state for the override claim: assigned bot without any
matching trigger. -/
def envC1 : ResolverEnv :=
  { bots := [botC1], funnels := [], enrollments := [], settings := [settingsC1] }

/-- Automation state for the override claim's witness: assigned bot with
an `always` trigger. -/
def envC1w : ResolverEnv :=
  { bots := [botC1w], funnels := [], enrollments := [], settings := [settingsC1] }

/-- The message context used by the resolver instances. -/
def ctxC1 : MsgCtx :=
  { body := "hello", sentimentPolarity := .positive, sentimentScore := 0
    arrivalMin := 600 }

/-- A workspace-default bot with auto-respond on but no triggers. -/
def botC5 : AIBot :=
  { id := 9, workspace_id := 1, name := "default"
    bot_type := .workspace_default, auto_respond := true
    max_messages_per_conversation := none, is_active := true, triggers := [] }

/-- The same workspace-default bot with an `always` trigger. -/
def botC5w : AIBot :=
  { botC5 with
    triggers := [{ id := 91, bot_id := 9, spec := .always, priority := 0
                   is_active := true }] }

/-- The `ai_response` step of funnel 3: bot 5, `max_messages` 2. -/
def stepC5 : FunnelStep :=
  { id := 31, funnel_id := 3, name := "ai step", step_order := 2
    spec := .ai_response 5 (some 2), is_active := true }

/-- Funnel 3 with the capped `ai_response` step. -/
def funnelC5 : Funnel :=
  { id := 3, workspace_id := 1, name := "welcome", is_active := true
    priority := 0, steps := [stepC5] }

/-- An active enrollment sitting at the `ai_response` step with the
`max_messages` cap of 2 already reached. -/
def enrC5 : FunnelEnrollment :=
  { id := 1, funnel_id := 3, conversation_id := "conv", current_step := 2
    status := .active, next_step_at := none, automated_replies := 2 }

/-- Automation state for the cap claim: no override, capped funnel step,
triggerless default bot. -/
def envC5 : ResolverEnv :=
  { bots := [botC5], funnels := [funnelC5], enrollments := [enrC5]
    settings := [] }

/-- Automation state for the cap claim's witness: default bot with an
`always` trigger. -/
def envC5w : ResolverEnv :=
  { bots := [botC5w], funnels := [funnelC5], enrollments := [enrC5]
    settings := [] }

/-- A completed enrollment of funnel 3 for conversation `conv`. -/
def enrC9a : FunnelEnrollment :=
  { id := 1, funnel_id := 3, conversation_id := "conv", current_step := 4
    status := .completed, next_step_at := none, automated_replies := 0 }

/-- A second completed enrollment of the same funnel for the same
conversation. -/
def enrC9b : FunnelEnrollment :=
  { id := 2, funnel_id := 3, conversation_id := "conv", current_step := 4
    status := .completed, next_step_at := none, automated_replies := 1 }

/-- An active enrollment for the uniqueness witness. -/
def enrC9w : FunnelEnrollment :=
  { id := 5, funnel_id := 3, conversation_id := "conv", current_step := 1
    status := .active, next_step_at := none, automated_replies := 0 }

/-- A healthy connected client session. -/
def connectedClient : ClientState :=
  { ws := some .opened, pingActive := true, pongActive := false
    reconnectScheduled := none, reconnectAttempts := 0, messageQueue := []
    isManualClose := false, connState := .connected, lastError := none
    wire := [] }

/-- A connected session with a probe in flight (pong timeout armed). -/
def sC4 : ClientState := { connectedClient with pongActive := true }

/-- A connected session that has already failed three reconnect attempts. -/
def sC6 : ClientState := { connectedClient with reconnectAttempts := 3 }

/-- A disconnected session with no socket. -/
def sC7 : ClientState :=
  { connectedClient with
    ws := none, pingActive := false, connState := .disconnected }

/-- A freshly created socket (connecting) with two queued messages. -/
def sC7c : ClientState :=
  { connectedClient with
    ws := some .connecting, pingActive := false, connState := .connecting,
    messageQueue := ["first", "second"] }

/-- A connected session about to receive a server policy close. -/
def sC10 : ClientState := connectedClient

/-- A manually disconnected session. -/
def sC10m : ClientState :=
  { connectedClient with
    ws := some .closed, pingActive := false, isManualClose := true,
    connState := .disconnected }

/-! ## Theorems

Helper lemmas first, then one theorem per claim (with its witness or
counterexample). -/

set_option maxRecDepth 4000 in
/-- The RFC 1321 test vector for the empty message: the embedded MD5
agrees with `hashlib.md5(b"").digest()`. -/
theorem md5_test_vector_empty :
    md5Bytes (strBytes "") =
      [0xd4, 0x1d, 0x8c, 0xd9, 0x8f, 0x00, 0xb2, 0x04,
       0xe9, 0x80, 0x09, 0x98, 0xec, 0xf8, 0x42, 0x7e] := by decide

set_option maxRecDepth 4000 in
/-- The RFC 1321 test vector for `"abc"`. -/
theorem md5_test_vector_abc :
    md5Bytes (strBytes "abc") =
      [0x90, 0x01, 0x50, 0x98, 0x3c, 0xd2, 0x4f, 0xb0,
       0xd6, 0x96, 0x3f, 0x7d, 0x28, 0xe1, 0x7f, 0x72] := by decide

/-- The hex encoding of a byte list has two characters per byte. -/
theorem length_byteHex_flatten :
    ∀ l : List Nat, ((l.map byteHex).flatten).length = 2 * l.length
  | [] => rfl
  | b :: bs => by
    simp [byteHex, length_byteHex_flatten bs]
    omega

/-- An MD5 digest is sixteen bytes. -/
theorem md5Bytes_length (msg : List Nat) : (md5Bytes msg).length = 16 := rfl

/-- An MD5 hexdigest is 32 characters. -/
theorem md5HexChars_length (msg : List Nat) : (md5HexChars msg).length = 32 := by
  rw [md5HexChars, length_byteHex_flatten, md5Bytes_length]

/-- A stable conversation id is always exactly 16 characters. -/
theorem create_stable_conversation_id_length (platform : String)
    (user_id : Nat) (participant_id : String) :
    (create_stable_conversation_id platform user_id participant_id).length = 16 := by
  show (String.mk _).length = 16
  rw [show ∀ l : List Char, (String.mk l).length = l.length from fun _ => rfl]
  rw [List.length_take, md5HexChars_length]
  rfl

/-- When the handler resolves an account and the event carries a message,
it appends exactly one message row, keyed by the stable conversation id
of `(facebook, account user, sender)`, and leaves the account table
unchanged. -/
theorem handle_appends (f : String → String → SenderInfo) (now : Nat)
    (e : FBEvent) (db : DB) (a : ConnectedAccount)
    (ha : findAccount db e = some a) (hm : e.has_message = true) :
    (handle_facebook_message f now e db).messages =
      db.messages ++
        [{ user_id := a.user_id
           platform := "facebook"
           conversation_id :=
             create_stable_conversation_id "facebook" a.user_id e.sender_id
           message_id := e.mid
           sender_id := e.sender_id
           recipient_id := e.recipient_id
           direction := .incoming
           content := e.text
           status := .delivered }] ∧
    (handle_facebook_message f now e db).accounts = db.accounts := by
  simp [handle_facebook_message, ha, hm]

/-- C2: two inbound messages from the same `(platform, workspace,
external participant)` received through two different connected accounts
or page ids resolve to the same conversation key: each run appends a
message keyed by `create_stable_conversation_id(facebook, user, sender)`,
which reads only the account's owning user id — never the account id,
page id or token — so runs differing only in the receiving account yield
equal keys. -/
theorem stable_key_account_independent
    (f1 f2 : String → String → SenderInfo) (now1 now2 : Nat)
    (e1 e2 : FBEvent) (db1 db2 : DB) (a1 a2 : ConnectedAccount)
    (h1 : findAccount db1 e1 = some a1) (h2 : findAccount db2 e2 = some a2)
    (hu : a1.user_id = a2.user_id) (hs : e1.sender_id = e2.sender_id)
    (hm1 : e1.has_message = true) (hm2 : e2.has_message = true) :
    ∃ m1 m2 : Message,
      (handle_facebook_message f1 now1 e1 db1).messages = db1.messages ++ [m1] ∧
      (handle_facebook_message f2 now2 e2 db2).messages = db2.messages ++ [m2] ∧
      m1.conversation_id =
        create_stable_conversation_id "facebook" a1.user_id e1.sender_id ∧
      m2.conversation_id =
        create_stable_conversation_id "facebook" a2.user_id e2.sender_id ∧
      m1.conversation_id = m2.conversation_id := by
  refine ⟨_, _, (handle_appends f1 now1 e1 db1 a1 h1 hm1).1,
    (handle_appends f2 now2 e2 db2 a2 h2 hm2).1, rfl, rfl, ?_⟩
  show create_stable_conversation_id "facebook" a1.user_id e1.sender_id =
    create_stable_conversation_id "facebook" a2.user_id e2.sender_id
  rw [hu, hs]

/-- Witness for C2: participant `P1` reaching user 7 through page A and
through page B resolves to one conversation key. -/
theorem stable_key_account_independent_witness :
    findAccount dbC2 evC2A = some acctC2A ∧
    findAccount dbC2 evC2B = some acctC2B ∧
    acctC2A.user_id = acctC2B.user_id ∧
    evC2A.sender_id = evC2B.sender_id ∧
    ∃ m1 m2 : Message,
      (handle_facebook_message fetchW 0 evC2A dbC2).messages =
        dbC2.messages ++ [m1] ∧
      (handle_facebook_message fetchW 0 evC2B dbC2).messages =
        dbC2.messages ++ [m2] ∧
      m1.conversation_id =
        create_stable_conversation_id "facebook" acctC2A.user_id evC2A.sender_id ∧
      m2.conversation_id =
        create_stable_conversation_id "facebook" acctC2B.user_id evC2B.sender_id ∧
      m1.conversation_id = m2.conversation_id :=
  ⟨by decide, by decide, rfl, rfl,
    stable_key_account_independent fetchW fetchW 0 0 evC2A evC2B dbC2 dbC2
      acctC2A acctC2B (by decide) (by decide) rfl rfl rfl rfl⟩

/-- C3 counterexample: delivering the webhook event with platform message
id `mid-1` twice persists two message rows, both carrying that same
external id — the second ingestion is not a no-op. -/
theorem duplicate_ingest_counterexample :
    (handle_facebook_message fetchW 0 evC3
      (handle_facebook_message fetchW 0 evC3 dbC3)).messages.length = 2 ∧
    ((handle_facebook_message fetchW 0 evC3
      (handle_facebook_message fetchW 0 evC3 dbC3)).messages.map
        Message.message_id) = [some "mid-1", some "mid-1"] := by
  constructor
  · rfl
  · rfl

/-- C3 as amended: ingesting the same raw webhook event twice appends two
message rows sharing the platform message id — the handler performs no
idempotency check on `mid`, so duplicate deliveries create duplicate
persisted messages (there is no `DuplicateMessage` no-op). -/
theorem duplicate_ingest_appends_twice (f : String → String → SenderInfo)
    (now : Nat) (e : FBEvent) (db : DB) (a : ConnectedAccount)
    (ha : findAccount db e = some a) (hm : e.has_message = true) :
    ∃ m1 m2 : Message,
      (handle_facebook_message f now e
        (handle_facebook_message f now e db)).messages =
        (db.messages ++ [m1]) ++ [m2] ∧
      m1.message_id = e.mid ∧ m2.message_id = e.mid ∧
      m1.conversation_id = m2.conversation_id := by
  have h1 := handle_appends f now e db a ha hm
  have ha' : findAccount (handle_facebook_message f now e db) e = some a := by
    unfold findAccount at ha ⊢
    rw [h1.2]
    exact ha
  have h2 := handle_appends f now e (handle_facebook_message f now e db) a ha' hm
  exact ⟨_, _, by rw [h2.1, h1.1], rfl, rfl, rfl⟩

/-- Witness for the amended C3 at the concrete duplicated event. -/
theorem duplicate_ingest_appends_twice_witness :
    findAccount dbC3 evC3 = some acctC3 ∧
    evC3.has_message = true ∧
    ∃ m1 m2 : Message,
      (handle_facebook_message fetchW 0 evC3
        (handle_facebook_message fetchW 0 evC3 dbC3)).messages =
        (dbC3.messages ++ [m1]) ++ [m2] ∧
      m1.message_id = evC3.mid ∧ m2.message_id = evC3.mid ∧
      m1.conversation_id = m2.conversation_id :=
  ⟨by decide, rfl,
    duplicate_ingest_appends_twice fetchW 0 evC3 dbC3 acctC3 (by decide) rfl⟩

/-- C8 counterexample: an event whose `sender_id` is empty is not
rejected — the handler persists the message row (nothing is dropped, no
`InvalidIdentity` path exists), keyed by the hash of the empty
participant id. -/
theorem empty_participant_id_counterexample :
    evC8.sender_id = "" ∧
    (handle_facebook_message fetchW 0 evC8 dbC8).messages.length = 1 ∧
    ((handle_facebook_message fetchW 0 evC8 dbC8).messages.map
      Message.conversation_id) =
      [create_stable_conversation_id "facebook" 7 ""] ∧
    create_stable_conversation_id "facebook" 7 "" ≠ "" := by
  refine ⟨rfl, rfl, rfl, ?_⟩
  intro h
  have h16 := create_stable_conversation_id_length "facebook" 7 ""
  rw [h] at h16
  exact absurd h16 (by decide)

/-- C8 as amended: the handler accepts any `external_participant_id`,
including the empty string — no `InvalidIdentity` failure exists and the
message is persisted rather than dropped; the persisted conversation key
is the 16-character truncated hash, so it is never the empty string (that
half of the claim holds for the derived key, not because empty ids are
rejected). -/
theorem empty_participant_id_persisted (f : String → String → SenderInfo)
    (now : Nat) (e : FBEvent) (db : DB) (a : ConnectedAccount)
    (ha : findAccount db e = some a) (hm : e.has_message = true) :
    ∃ m : Message,
      (handle_facebook_message f now e db).messages = db.messages ++ [m] ∧
      m.conversation_id.length = 16 ∧
      m.conversation_id ≠ "" := by
  refine ⟨_, (handle_appends f now e db a ha hm).1,
    create_stable_conversation_id_length _ _ _, ?_⟩
  intro h
  have h' : create_stable_conversation_id "facebook" a.user_id e.sender_id = "" := h
  have h16 := create_stable_conversation_id_length "facebook" a.user_id e.sender_id
  rw [h'] at h16
  exact absurd h16 (by decide)

/-- Witness for the amended C8 at the empty-sender event. -/
theorem empty_participant_id_persisted_witness :
    findAccount dbC8 evC8 = some acctC8 ∧
    evC8.has_message = true ∧ evC8.sender_id = "" ∧
    ∃ m : Message,
      (handle_facebook_message fetchW 0 evC8 dbC8).messages =
        dbC8.messages ++ [m] ∧
      m.conversation_id.length = 16 ∧
      m.conversation_id ≠ "" :=
  ⟨by decide, rfl, rfl,
    empty_participant_id_persisted fetchW 0 evC8 dbC8 acctC8 (by decide) rfl⟩

/-- C1 counterexample: a conversation with `assigned_bot_id = 1` and
`ai_enabled = true` whose assigned bot has no matching trigger resolves
to `NoResponse`, not `UseBot 1` — the trigger gate applies even to the
conversation override, so the claim's unconditional `UseBot` fails. -/
theorem override_bot_no_trigger_counterexample :
    findSettings envC1 "conv" = some settingsC1 ∧
    settingsC1.assigned_bot_id = some 1 ∧
    settingsC1.ai_enabled = true ∧
    resolveResponder envC1 "conv" 1 ctxC1 = .NoResponse ∧
    ResponderDecision.NoResponse ≠ .UseBot 1 := by decide

/-- C1 as amended: when the conversation's AI settings carry an assigned
bot and `ai_enabled`, the resolver never uses a funnel or workspace bot —
it returns `UseBot assigned` exactly when some active trigger of the
assigned bot matches the message, and `NoResponse` otherwise (trigger
match is a gate, not a selector), regardless of any enrollment or
workspace default configuration. -/
theorem override_bot_resolution (env : ResolverEnv) (key : String)
    (wsId : Nat) (ctx : MsgCtx) (s : ConversationAISettings) (b : Nat)
    (hs : findSettings env key = some s) (hb : s.assigned_bot_id = some b)
    (he : s.ai_enabled = true) :
    resolveResponder env key wsId ctx =
      (match findBot env b with
       | none => .NoResponse
       | some bot => if botTriggerMatches bot ctx then .UseBot b else .NoResponse) := by
  simp [resolveResponder, selectResponder, overrideBot, hs, he, hb]

/-- Witness for the amended C1: with an `always` trigger on the assigned
bot, the override resolves to `UseBot 1` past an otherwise empty
hierarchy. -/
theorem override_bot_resolution_witness :
    findSettings envC1w "conv" = some settingsC1 ∧
    settingsC1.assigned_bot_id = some 1 ∧
    settingsC1.ai_enabled = true ∧
    resolveResponder envC1w "conv" 1 ctxC1 = .UseBot 1 :=
  ⟨by decide, rfl, rfl,
    (override_bot_resolution envC1w "conv" 1 ctxC1 settingsC1 1
      (by decide) rfl rfl).trans (by decide)⟩

/-- C5 counterexample: with no override, an active enrollment whose
current `ai_response` step has its `max_messages` cap of 2 reached, and
an active auto-respond workspace default bot 9 that has no matching
trigger, the resolver returns `NoResponse`, not `UseBot 9` — the trigger
gate applies to the default bot too, so the claim's unconditional
fall-through to the default bot fails. -/
theorem funnel_cap_counterexample :
    overrideBot envC5 "conv" = none ∧
    activeEnrollment envC5 "conv" = some enrC5 ∧
    currentStepOf envC5 enrC5 = some stepC5 ∧
    stepC5.spec = .ai_response 5 (some 2) ∧
    2 ≤ enrC5.automated_replies ∧
    workspaceDefaultBot envC5 1 = some 9 ∧
    resolveResponder envC5 "conv" 1 ctxC1 = .NoResponse ∧
    ResponderDecision.NoResponse ≠ .UseBot 9 := by decide

/-- C5 as amended: with no conversation override and an active enrollment
whose current `ai_response` step has already reached its `max_messages`
cap, the resolver never uses the funnel step's bot; it falls through to
the workspace default bot — returning `UseBot default` exactly when that
bot exists, is active with `auto_respond`, and one of its triggers
matches the message — and `NoResponse` otherwise. -/
theorem funnel_cap_falls_through (env : ResolverEnv) (key : String)
    (wsId : Nat) (ctx : MsgCtx) (e : FunnelEnrollment) (st : FunnelStep)
    (bid cap : Nat)
    (hov : overrideBot env key = none)
    (hen : activeEnrollment env key = some e)
    (hst : currentStepOf env e = some st)
    (hai : st.spec = .ai_response bid (some cap))
    (hcap : cap ≤ e.automated_replies) :
    resolveResponder env key wsId ctx =
      (match workspaceDefaultBot env wsId with
       | none => .NoResponse
       | some d =>
         match findBot env d with
         | none => .NoResponse
         | some bot => if botTriggerMatches bot ctx then .UseBot d else .NoResponse) := by
  have hfb : funnelBot env key = none := by
    simp [funnelBot, hen, hst, hai, show ¬(e.automated_replies < cap) by omega]
  simp [resolveResponder, selectResponder, hov, hfb]

/-- Witness for the amended C5: with an `always` trigger on the default
bot, the capped funnel step is skipped and workspace default bot 9
responds. -/
theorem funnel_cap_falls_through_witness :
    overrideBot envC5w "conv" = none ∧
    activeEnrollment envC5w "conv" = some enrC5 ∧
    currentStepOf envC5w enrC5 = some stepC5 ∧
    2 ≤ enrC5.automated_replies ∧
    resolveResponder envC5w "conv" 1 ctxC1 = .UseBot 9 :=
  ⟨by decide, by decide, by decide, by decide,
    (funnel_cap_falls_through envC5w "conv" 1 ctxC1 enrC5 stepC5 5 2
      (by decide) (by decide) (by decide) rfl (by decide)).trans (by decide)⟩

/-- C9 counterexample: two historically completed enrollments of the same
funnel for the same conversation violate the schema's
`UNIQUE(funnel_id, conversation_id, status)` constraint — multiple
completed (or exited) enrollments for one pair cannot coexist. -/
theorem enrollment_unique_counterexample :
    enrC9a.status = .completed ∧ enrC9b.status = .completed ∧
    enrC9a.funnel_id = enrC9b.funnel_id ∧
    enrC9a.conversation_id = enrC9b.conversation_id ∧
    enrC9a.id ≠ enrC9b.id ∧
    ¬enrollmentsUnique [enrC9a, enrC9b] := by decide

/-- C9 as amended: under the schema constraint
`UNIQUE(funnel_id, conversation_id, status)` every reachable enrollment
table has at most one enrollment per `(funnel, conversation)` pair in
each status — in particular at most one active enrollment, but equally at
most one completed and at most one exited, so multiple historical
completed/exited enrollments for the same pair cannot coexist. -/
theorem enrollment_unique_per_status (es : List FunnelEnrollment)
    (funnelId : Nat) (convId : String) (st : EnrollStatus)
    (h : enrollmentsUnique es) :
    countEnrollments es funnelId convId st ≤ 1 := by
  induction es with
  | nil => simp [countEnrollments]
  | cons e es ih =>
    rw [enrollmentsUnique, List.pairwise_cons] at h
    by_cases hp : (e.funnel_id == funnelId && e.conversation_id == convId &&
        e.status == st) = true
    · have hnil : (es.filter fun x =>
          x.funnel_id == funnelId && x.conversation_id == convId &&
            x.status == st) = [] := by
        rw [List.filter_eq_nil_iff]
        intro b hb hpb
        simp only [Bool.and_eq_true, beq_iff_eq] at hp hpb
        exact h.1 b hb ⟨hp.1.1.trans hpb.1.1.symm,
          hp.1.2.trans hpb.1.2.symm, hp.2.trans hpb.2.symm⟩
      simp [countEnrollments, List.filter, hp, hnil]
    · have := ih h.2
      simpa [countEnrollments, List.filter, hp] using this

/-- Witness for the amended C9: a singleton active enrollment satisfies
the constraint and has at most one active row for its pair. -/
theorem enrollment_unique_per_status_witness :
    enrollmentsUnique [enrC9w] ∧
    countEnrollments [enrC9w] 3 "conv" .active ≤ 1 :=
  ⟨by decide, enrollment_unique_per_status [enrC9w] 3 "conv" .active (by decide)⟩

/-- Only a socket `open` event arms the heartbeat interval: every other
event leaves a cleared `pingInterval` cleared. -/
theorem step_pingActive_preserved (e : WSEvent) (s : ClientState)
    (hne : e ≠ .openEvt) (h : s.pingActive = false) :
    (step e s).pingActive = false := by
  cases e <;> simp only [step, doConnect] <;> (repeat' split) <;> simp_all

/-- Running any trace without a socket `open` event keeps the heartbeat
interval cleared. -/
theorem steps_pingActive (es : List WSEvent) (s : ClientState)
    (h : s.pingActive = false) (hno : WSEvent.openEvt ∉ es) :
    (steps es s).pingActive = false := by
  induction es generalizing s with
  | nil => exact h
  | cons e es ih =>
    show (steps es (step e s)).pingActive = false
    refine ih (step e s) (step_pingActive_preserved e s ?_ h) ?_
    · intro he
      exact hno (by rw [he]; exact List.mem_cons_self _ _)
    · intro hm
      exact hno (List.mem_cons_of_mem _ hm)

/-- C4: a session whose liveness probe gets no pong within the timeout is
closed with the distinct `Heartbeat timeout` reason (distinguishable from
a clean close), the close event cancels both the ping interval and the
pong timeout, a probe tick on a non-open socket sends nothing, and after
the close no further probe ever fires on that session — any trace without
a fresh socket `open` keeps the interval cleared and makes every probe
tick a no-op. -/
theorem heartbeat_timeout_closes_and_cancels :
    pongTimeoutMs = 5000 ∧
    (∀ s : ClientState, s.pongActive = true →
      (step .pongTimeoutFire s).lastError = some .heartbeatTimeout ∧
      (step .pongTimeoutFire s).connState = .error ∧
      (step .pongTimeoutFire s).ws = closeSocket s.ws) ∧
    ErrMsg.heartbeatTimeout ≠ ErrMsg.connectionClosed ∧
    (∀ (s : ClientState) (code : Nat) (wc : Bool), s.ws ≠ none →
      (step (.closeEvt code wc) s).pingActive = false ∧
      (step (.closeEvt code wc) s).pongActive = false) ∧
    (∀ s : ClientState, s.ws ≠ some .opened → step .pingTick s = s) ∧
    (∀ (s : ClientState) (es : List WSEvent), s.pingActive = false →
      WSEvent.openEvt ∉ es →
      (steps es s).pingActive = false ∧
      step .pingTick (steps es s) = steps es s) := by
  refine ⟨rfl, ?_, by decide, ?_, ?_, ?_⟩
  · intro s h
    simp [step, h]
  · intro s code wc h
    simp only [step]
    rw [if_neg (by simp [h])]
    constructor <;> split <;> rfl
  · intro s h
    simp only [step]
    split
    · rw [if_neg (by simp [h])]
    · rfl
  · intro s es h hno
    have hping := steps_pingActive es s h hno
    exact ⟨hping, by simp [step, hping]⟩

/-- Witness for C4: a probed, unanswered session records the heartbeat
reason, the subsequent close clears the timers, and later non-open events
never re-arm the probe. -/
theorem heartbeat_timeout_closes_and_cancels_witness :
    sC4.pongActive = true ∧
    (step .pongTimeoutFire sC4).lastError = some .heartbeatTimeout ∧
    (step (.closeEvt 1005 true) sC4).pingActive = false ∧
    (steps [.pingTick, .send "x"] (step (.closeEvt 1005 true) sC4)).pingActive
      = false :=
  ⟨rfl,
   (heartbeat_timeout_closes_and_cancels.2.1 sC4 rfl).1,
   (heartbeat_timeout_closes_and_cancels.2.2.2.1 sC4 1005 true (by decide)).1,
   (heartbeat_timeout_closes_and_cancels.2.2.2.2.2
     (step (.closeEvt 1005 true) sC4) [.pingTick, .send "x"]
     (heartbeat_timeout_closes_and_cancels.2.2.2.1 sC4 1005 true (by decide)).1
     (by decide)).1⟩

/-- C6: every retryable abnormal closure (not manual, not code 1008)
schedules a reconnect with the hook's backoff delay and increments the
attempt counter; the first retry fires at 100 ms in the hook and 500 ms
in the context provider (both within 0.1–0.5 s); for attempt `n ≥ 2` the
delay is exactly `min(1000·2^(n-2), 10000)` ms in both; no delay ever
exceeds the 10-second cap; and a successful open resets the attempt
counter to zero. -/
theorem reconnect_backoff_policy :
    (∀ (s : ClientState) (code : Nat) (wc : Bool),
      s.isManualClose = false → code ≠ 1008 → s.ws ≠ none →
      (step (.closeEvt code wc) s).reconnectScheduled =
        some (reconnectDelay s.reconnectAttempts) ∧
      (step (.closeEvt code wc) s).reconnectAttempts =
        s.reconnectAttempts + 1) ∧
    (reconnectDelay 0 = 100 ∧ 100 ≤ reconnectDelay 0 ∧ reconnectDelay 0 ≤ 500 ∧
      ctxReconnectDelay 0 = 500 ∧ 100 ≤ ctxReconnectDelay 0 ∧
      ctxReconnectDelay 0 ≤ 500) ∧
    (∀ n : Nat, 2 ≤ n →
      reconnectDelay (n - 1) = min (1000 * 2 ^ (n - 2)) 10000 ∧
      ctxReconnectDelay (n - 1) = min (1000 * 2 ^ (n - 2)) 10000) ∧
    (∀ k : Nat, reconnectDelay k ≤ 10000 ∧ ctxReconnectDelay k ≤ 10000) ∧
    (∀ s : ClientState, s.ws = some .connecting →
      (step .openEvt s).reconnectAttempts = 0) := by
  refine ⟨?_, by decide, ?_, ?_, ?_⟩
  · intro s code wc h1 h2 h3
    simp only [step]
    rw [if_neg (by simp [h3]), if_neg (by simp [h1, h2])]
    exact ⟨rfl, rfl⟩
  · intro n hn
    have h0 : ¬(n - 1 = 0) := by omega
    have h12 : n - 1 - 1 = n - 2 := by omega
    rw [reconnectDelay, ctxReconnectDelay, if_neg h0, if_neg h0, h12]
    exact ⟨rfl, rfl⟩
  · intro k
    by_cases hk : k = 0
    · subst hk
      exact ⟨by decide, by decide⟩
    · rw [reconnectDelay, ctxReconnectDelay, if_neg hk, if_neg hk]
      exact ⟨Nat.min_le_right _ _, Nat.min_le_right _ _⟩
  · intro s h
    simp [step, h]

/-- Witness for C6: a third failed attempt is rescheduled after
`min(1000·2^2, 10000) = 4000` ms, and the attempt counter resets on open. -/
theorem reconnect_backoff_policy_witness :
    sC6.isManualClose = false ∧ sC6.ws ≠ none ∧
    (step (.closeEvt 1006 false) sC6).reconnectScheduled =
      some (reconnectDelay sC6.reconnectAttempts) ∧
    reconnectDelay sC6.reconnectAttempts = 4000 ∧
    reconnectDelay (4 - 1) = min (1000 * 2 ^ (4 - 2)) 10000 ∧
    reconnectDelay 20 ≤ 10000 ∧
    (step .openEvt sC7c).reconnectAttempts = 0 :=
  ⟨rfl, by decide,
   (reconnect_backoff_policy.1 sC6 1006 false rfl (by decide) (by decide)).1,
   by decide,
   (reconnect_backoff_policy.2.2.1 4 (by decide)).1,
   (reconnect_backoff_policy.2.2.2.1 20).1,
   reconnect_backoff_policy.2.2.2.2 sC7c rfl⟩

/-- C7: a message sent while the session is not open is appended to the
queue and nothing else changes (no drop, no drop-oldest); a fresh connect
starts the new session with an empty frame log; on open the entire queue
is flushed in arrival order as the first traffic of the session and the
queue empties; a message sent while open goes out immediately. -/
theorem offline_queue_fifo_flush :
    (∀ (s : ClientState) (m : String), s.ws ≠ some .opened →
      step (.send m) s = { s with messageQueue := s.messageQueue ++ [m] }) ∧
    (∀ (s : ClientState) (m : String), s.ws = some .opened →
      step (.send m) s = { s with wire := s.wire ++ [m] }) ∧
    (∀ s : ClientState, s.isManualClose = false → (doConnect s).wire = []) ∧
    (∀ s : ClientState, s.ws = some .connecting →
      (step .openEvt s).wire = s.wire ++ s.messageQueue ∧
      (step .openEvt s).messageQueue = []) := by
  refine ⟨?_, ?_, ?_, ?_⟩
  · intro s m h
    simp only [step]
    rw [if_neg (by simp [h])]
  · intro s m h
    simp [step, h]
  · intro s h
    simp [doConnect, h]
  · intro s h
    simp [step, h]

/-- Witness for C7: two messages queued while disconnected are the first
two frames of the reopened session, in arrival order. -/
theorem offline_queue_fifo_flush_witness :
    sC7.ws ≠ some .opened ∧
    step (.send "first") sC7 =
      { sC7 with messageQueue := sC7.messageQueue ++ ["first"] } ∧
    sC7c.messageQueue = ["first", "second"] ∧
    (step .openEvt sC7c).wire = sC7c.wire ++ sC7c.messageQueue ∧
    (step .openEvt sC7c).wire = ["first", "second"] ∧
    (step .openEvt sC7c).messageQueue = [] :=
  ⟨by decide,
   offline_queue_fifo_flush.1 sC7 "first" (by decide),
   rfl,
   (offline_queue_fifo_flush.2.2.2 sC7c rfl).1,
   by decide,
   (offline_queue_fifo_flush.2.2.2 sC7c rfl).2⟩

/-- A closed-over event other than an explicit `reconnect()` call keeps
a manually-closed, unscheduled client manually closed and unscheduled. -/
theorem step_manual_preserved (e : WSEvent) (s : ClientState)
    (hne : e ≠ .reconnectCall) (hm : s.isManualClose = true)
    (hr : s.reconnectScheduled = none) :
    (step e s).isManualClose = true ∧
    (step e s).reconnectScheduled = none := by
  cases e <;> simp only [step, doConnect] <;> (repeat' split) <;> simp_all

/-- Traces without an explicit `reconnect()` call keep a manually-closed
client blocked: the flag stays set and no reconnect is ever scheduled. -/
theorem steps_manual_preserved (es : List WSEvent) (s : ClientState)
    (hm : s.isManualClose = true) (hr : s.reconnectScheduled = none)
    (hno : WSEvent.reconnectCall ∉ es) :
    (steps es s).isManualClose = true ∧
    (steps es s).reconnectScheduled = none := by
  induction es generalizing s with
  | nil => exact ⟨hm, hr⟩
  | cons e es ih =>
    show (steps es (step e s)).isManualClose = true ∧ _
    have hstep := step_manual_preserved e s
      (fun he => hno (by rw [he]; exact List.mem_cons_self _ _)) hm hr
    exact ih (step e s) hstep.1 hstep.2 fun hmem =>
      hno (List.mem_cons_of_mem _ hmem)

/-- C10 counterexample: after a server close with code 1008 the `onclose`
handler schedules no reconnect, but `isManualClose` is not set, so a
later `connect` invocation (focus / visibility / online handlers) is not
blocked — it proceeds to open a new socket, contrary to the claim that
the flag blocks any later connect until an explicit reconnect. -/
theorem code1008_reconnect_counterexample :
    sC10.isManualClose = false ∧
    (step (.closeEvt 1008 true) sC10).reconnectScheduled = none ∧
    (step (.closeEvt 1008 true) sC10).isManualClose = false ∧
    (step .connectCall (step (.closeEvt 1008 true) sC10)).ws =
      some .connecting ∧
    (step .connectCall (step (.closeEvt 1008 true) sC10)).connState =
      .connecting ∧
    step .connectCall (step (.closeEvt 1008 true) sC10) ≠
      step (.closeEvt 1008 true) sC10 := by decide

/-- C10 as amended: `disconnect()` sets `isManualClose`, and while the
flag is set the `onclose` handler schedules nothing, a `connect`
invocation is a no-op, and whole traces without an explicit `reconnect()`
never schedule a reconnect; a server close with code 1008 suppresses only
the immediate `onclose` reconnect — it does not set `isManualClose`, so
later connect invocations are not blocked; an explicit `reconnect()`
clears the flag. -/
theorem manual_close_blocks_reconnect :
    (∀ s : ClientState, (step .disconnectCall s).isManualClose = true) ∧
    (∀ (s : ClientState) (code : Nat) (wc : Bool), s.isManualClose = true →
      (step (.closeEvt code wc) s).reconnectScheduled =
        s.reconnectScheduled ∧
      step .connectCall s = s) ∧
    (∀ (s : ClientState) (wc : Bool), s.ws ≠ none →
      (step (.closeEvt 1008 wc) s).reconnectScheduled =
        s.reconnectScheduled ∧
      (step (.closeEvt 1008 wc) s).isManualClose = s.isManualClose) ∧
    (∀ (s : ClientState) (es : List WSEvent),
      s.isManualClose = true → s.reconnectScheduled = none →
      WSEvent.reconnectCall ∉ es →
      (steps es s).isManualClose = true ∧
      (steps es s).reconnectScheduled = none) ∧
    (∀ s : ClientState, (step .reconnectCall s).isManualClose = false) := by
  refine ⟨?_, ?_, ?_,
    fun s es hm hr hno => steps_manual_preserved es s hm hr hno, ?_⟩
  · intro s
    rfl
  · intro s code wc h
    constructor
    · simp only [step]
      split
      · rfl
      · rw [if_pos (by simp [h])]
    · simp [step, doConnect, h]
  · intro s wc h
    simp only [step]
    rw [if_neg (by simp [h]), if_pos (by simp)]
    exact ⟨rfl, rfl⟩
  · intro s
    simp [step, doConnect]

/-- Witness for the amended C10: a manually disconnected client ignores
closes and connect calls across a whole trace, and `reconnect()` lifts
the block. -/
theorem manual_close_blocks_reconnect_witness :
    (step .disconnectCall connectedClient).isManualClose = true ∧
    sC10m.isManualClose = true ∧
    step .connectCall sC10m = sC10m ∧
    (steps [.connectCall, .closeEvt 1006 false, .send "x"] sC10m).reconnectScheduled = none ∧
    (step .reconnectCall sC10m).isManualClose = false :=
  ⟨manual_close_blocks_reconnect.1 connectedClient,
   rfl,
   (manual_close_blocks_reconnect.2.1 sC10m 1006 false rfl).2,
   (manual_close_blocks_reconnect.2.2.2.1 sC10m
     [.connectCall, .closeEvt 1006 false, .send "x"] rfl rfl (by decide)).2,
   manual_close_blocks_reconnect.2.2.2.2 sC10m⟩

end ChattyFunnel
